import Mathlib

/-!
# UX-Evaluator — result aggregation and visual annotation, formalized

A shallow embedding of the result-aggregation and visual-annotation
subsystem of the UX-Evaluator frontend, together with theorems settling
the specification's claims against it.

Sources embedded:
* `AIEvaluationResults` component (`src/unnamed/part_004`): severity
  classification (`getSeverityClass`, the `severityOrder` comparator used
  by `sortedIssues`), issue flattening (`allIssues`), the pie-chart
  severity counts and tooltip percentage callback, and the
  fetch/object-URL lifecycle of the `useEffect` hook.
* `ImageAnnotator` component
  (`src/frontend/src/components/ImageAnnotator/ImageAnnotator.tsx`):
  the scale state and the annotation-rectangle projection.
* `ReportView` component
  (`src/frontend/src/components/ReportView/ReportView.tsx`): the
  severity-breakdown bar-width percentage.

JavaScript numbers are modeled as `ℚ` (all operations appearing in the
embedded code are exact on the inputs of interest); where the code can
divide by zero, the result is an explicit `JSNum` with `nan` / infinity
constructors mirroring IEEE-754 special values.  JavaScript's `||`
operator, which treats the number `0` as falsy, is modeled explicitly by
`jsOr`.  `Array.prototype.sort` with a consistent comparator is required
by ECMAScript 2019+ to be a stable sort; it is modeled by
`List.insertionSort` on the comparator's induced total preorder, whose
result is the unique stably-sorted permutation.
-/

/-! ## Data model (`src/frontend/src/services/api/types.ts`) -/

/-- A point in source-image pixel space (`interface Coordinates`). -/
structure Coordinates where
  x : ℚ
  y : ℚ
deriving DecidableEq, Repr

/-- One detected issue (`interface AnalysisResultItem`). -/
structure AnalysisResultItem where
  top_left_coordinates : Coordinates
  top_right_coordinates : Coordinates
  bottom_right_coordinates : Coordinates
  bottom_left_coordinates : Coordinates
  heuristic : String
  description : String
  severity : String
  recommendation : String
deriving DecidableEq, Repr

/-- Per-page results (`interface PageAnalysisResult`). -/
structure PageAnalysisResult where
  analysis_results : List AnalysisResultItem
deriving DecidableEq, Repr

/-! ## Severity classification (`AIEvaluationResults`, part_004) -/

/-- JavaScript `String.prototype.toLowerCase()`: each character is
lowercased (this is also the specification of Lean's `String.toLower`,
restated with structural recursion so that it evaluates). -/
def jsToLower (s : String) : String :=
  ⟨s.data.map Char.toLower⟩

/-- The `severityOrder` object literal of the `sortedIssues` comparator:
`{ critical: 0, high: 1, medium: 2, low: 3 }`; property lookup on a key
outside the object yields `undefined`, modeled as `none`. -/
def severityOrder (s : String) : Option ℕ :=
  if s = "critical" then some 0
  else if s = "high" then some 1
  else if s = "medium" then some 2
  else if s = "low" then some 3
  else none

/-- JavaScript `v || d` on a possibly-`undefined` number `v`: both
`undefined` and the number `0` are falsy, so both fall through to `d`. -/
def jsOr (v : Option ℕ) (d : ℕ) : ℕ :=
  match v with
  | none => d
  | some n => if n = 0 then d else n

/-- The rank the comparator assigns to a severity string:
`severityOrder[sev.toLowerCase() as keyof typeof severityOrder] || 4`. -/
def rank (severity : String) : ℕ :=
  jsOr (severityOrder (jsToLower severity)) 4

/-- `getSeverityClass` (part_004 lines 88-100, identical copy in
`ReportView.tsx`): maps a severity string to a CSS class. -/
def getSeverityClass (severity : String) : String :=
  if jsToLower severity = "critical" then "error"
  else if jsToLower severity = "high" then "error"
  else if jsToLower severity = "medium" then "warning"
  else if jsToLower severity = "low" then "success"
  else ""

/-! ## Flattening and sorting (part_004 lines 114-132) -/

/-- `allIssues`: `results.analysis_results.flatMap(page =>
page.analysis_results.map(issue => ({...issue, severity: issue.severity,
type: issue.heuristic})))`.  The spread copies every field unchanged and
adds a `type` alias of `heuristic`; no field relevant to the claims is
altered, so the element type stays `AnalysisResultItem`. -/
def allIssues (pages : List PageAnalysisResult) : List AnalysisResultItem :=
  pages.flatMap (fun page => page.analysis_results)

/-- The comparator's induced ordering: `rank a - rank b ≤ 0`.  The JS
comparator returns the integer difference of the two ranks, so the sort
orders by `rank` ascending. -/
def severityLE (a b : AnalysisResultItem) : Prop :=
  rank a.severity ≤ rank b.severity

instance : DecidableRel severityLE := fun a b =>
  inferInstanceAs (Decidable (rank a.severity ≤ rank b.severity))

/-- `sortedIssues = [...allIssues].sort((a, b) => (severityOrder[...] || 4)
- (severityOrder[...] || 4))`.  ECMAScript requires `sort` to be stable,
and a stable sort by a total preorder has a unique result; insertion sort
realizes it. -/
def sortedIssues (issues : List AnalysisResultItem) : List AnalysisResultItem :=
  issues.insertionSort severityLE

/-! ## Summary statistics (part_004 lines 160-194) -/

/-- `allIssues.filter(i => i.severity.toLowerCase() === s).length`: the
count of one pie-chart slice. -/
def severityCount (issues : List AnalysisResultItem) (s : String) : ℕ :=
  (issues.filter (fun i => jsToLower i.severity = s)).length

/-- `datasets.data` of the severity pie chart: counts for the slices
labeled `["High", "Medium", "Low"]`, in that order. -/
def pieData (issues : List AnalysisResultItem) : List ℕ :=
  [severityCount issues "high", severityCount issues "medium",
    severityCount issues "low"]

/-- The "Issues Found" stat: `allIssues?.length || 0`; `allIssues` is a
freshly built array, so this is its length. -/
def issuesFound (issues : List AnalysisResultItem) : ℕ :=
  issues.length

/-! ## Percentages (part_004 lines 213-227; ReportView.tsx lines 97-144) -/

/-- A JavaScript number that may be an IEEE-754 special value. -/
inductive JSNum where
  | nan : JSNum
  | posInf : JSNum
  | negInf : JSNum
  | val : ℚ → JSNum
deriving DecidableEq, Repr

/-- JavaScript division `a / b` of two finite numbers: `0 / 0` is `NaN`,
`x / 0` for nonzero `x` is a signed infinity. -/
def jsDiv (a b : ℚ) : JSNum :=
  if b = 0 then
    if a = 0 then JSNum.nan
    else if 0 < a then JSNum.posInf
    else JSNum.negInf
  else JSNum.val (a / b)

/-- Multiplication of a possibly-special number by the positive literal
`100`, as in `value / total * 100`: special values are preserved. -/
def jsMul100 (x : JSNum) : JSNum :=
  match x with
  | JSNum.nan => JSNum.nan
  | JSNum.posInf => JSNum.posInf
  | JSNum.negInf => JSNum.negInf
  | JSNum.val q => JSNum.val (q * 100)

/-- The pie tooltip `label` callback's percentage:
`(value / total) * 100` where `total = context.dataset.data.reduce((a, b)
=> a + b, 0)`.  No guard against `total === 0` exists in the source. -/
def tooltipPercentage (value : ℚ) (data : List ℚ) : JSNum :=
  jsMul100 (jsDiv value data.sum)

/-- `ReportView` severity/category breakdown bar width:
`(count / report.summary.total_issues) * 100`, again unguarded. -/
def barWidthPercent (count total_issues : ℚ) : JSNum :=
  jsMul100 (jsDiv count total_issues)

/-! ## Annotation projection (`ImageAnnotator.tsx`) -/

/-- One annotation passed to `ImageAnnotator` (interface `Annotation`);
the optional `label` only affects text display, not geometry. -/
structure Annotation where
  top_left : Coordinates
  top_right : Coordinates
  bottom_right : Coordinates
  bottom_left : Coordinates
deriving DecidableEq, Repr

/-- The rendered overlay box style `{left, top, width, height}`. -/
structure AnnotationRect where
  left : ℚ
  top : ℚ
  width : ℚ
  height : ℚ
deriving DecidableEq, Repr

/-- The per-annotation body of `annotations.map` (ImageAnnotator.tsx
lines 52-57): `x = top_left.x * scale`, `y = top_left.y * scale`,
`width = (top_right.x - top_left.x) * scale`,
`height = (bottom_left.y - top_left.y) * scale`. -/
def project (a : Annotation) (scale : ℚ) : AnnotationRect :=
  { left := a.top_left.x * scale
    top := a.top_left.y * scale
    width := (a.top_right.x - a.top_left.x) * scale
    height := (a.bottom_left.y - a.top_left.y) * scale }

/-- The full `annotations.map(...)` render: one overlay box per
annotation, produced unconditionally — the JSX has no guard on `scale`
(or anything else) that could skip a rectangle. -/
def renderAnnotations (annotations : List Annotation) (scale : ℚ) :
    List AnnotationRect :=
  annotations.map (fun a => project a scale)

/-- `useState(1)`: the scale state's initial value, in force until the
image's `onload` fires. -/
def initialScale : ℚ := 1

/-- `img.onload = () => setScale(containerWidth / img.naturalWidth)`:
the scale computed once image metadata is available.  A loaded image has
positive `naturalWidth`, kept as a hypothesis where it matters. -/
def updateScaleOnLoad (containerWidth naturalWidth : ℚ) : ℚ :=
  containerWidth / naturalWidth

/-! ## Fetch / object-URL lifecycle (part_004 lines 21-69)

The `useEffect` hook runs `fetchResults` whenever `evaluationId` changes.
On success it wraps the screenshot blob in a fresh object URL
(`URL.createObjectURL`) and stores it with `setImageUrl`, and stores the
issue payload with `setResults`.  The effect's cleanup iterates over the
`screenshots` state and revokes each element's `imageUrl`; no call to
`setScreenshots` exists anywhere in the component, so `screenshots`
keeps its initial value `[]`.  The async closure applies its `set*`
calls unconditionally when its response arrives — there is no check that
`evaluationId` still matches the request that produced the response.

Object URLs are modeled as natural-number handle ids drawn from a
counter; the browser-side resource ledger (`created` / `revoked`) is
carried alongside the component state. -/

/-- The component state touched by the fetch lifecycle.  `results`
carries an opaque payload identifying which response produced it. -/
structure CompState where
  results : Option String
  imageUrl : Option ℕ
  error : Option String
  screenshots : List ℕ
deriving DecidableEq, Repr

/-- Component state plus the object-URL ledger. -/
structure World where
  comp : CompState
  created : List ℕ
  revoked : List ℕ
  nextHandle : ℕ
deriving DecidableEq, Repr

/-- Mount-time state: `useState(null)` for results/imageUrl/error and
`useState([])` for `screenshots`; no URLs exist yet. -/
def initWorld : World :=
  { comp := { results := none, imageUrl := none, error := none,
              screenshots := [] }
    created := []
    revoked := []
    nextHandle := 0 }

/-- A successful `fetchResults` response settling: `const imageUrl =
URL.createObjectURL(screenshotData); setImageUrl(imageUrl);
setResults(data)`.  Applied unconditionally by the closure — the source
has no staleness check against the current `evaluationId`. -/
def fetchSuccess (data : String) (w : World) : World :=
  let h := w.nextHandle
  { w with
    created := w.created ++ [h]
    nextHandle := h + 1
    comp := { w.comp with imageUrl := some h, results := some data } }

/-- The failure branch: `setError(message)`; no URL is created. -/
def fetchFailure (message : String) (w : World) : World :=
  { w with comp := { w.comp with error := some message } }

/-- The effect cleanup (part_004 lines 64-68):
`screenshots.forEach(s => URL.revokeObjectURL(s.imageUrl))`.  It runs on
unmount and before the effect re-runs for a new `evaluationId`. -/
def effectCleanup (w : World) : World :=
  { w with revoked := w.revoked ++ w.comp.screenshots }

/-- Handles created and not (yet) revoked. -/
def liveHandles (w : World) : List ℕ :=
  w.created.filter (fun h => ¬ h ∈ w.revoked)

/-! ## Concrete fixtures used by scenario theorems -/

/-- An issue with the given severity label; the geometric fields are
irrelevant to classification and sorting. -/
def mkIssue (sev : String) : AnalysisResultItem :=
  { top_left_coordinates := ⟨0, 0⟩
    top_right_coordinates := ⟨0, 0⟩
    bottom_right_coordinates := ⟨0, 0⟩
    bottom_left_coordinates := ⟨0, 0⟩
    heuristic := ""
    description := ""
    severity := sev
    recommendation := "" }

/-- The spec's projection scenario quadrilateral: topLeft=(100,100),
topRight=(300,100), bottomLeft=(100,200). -/
def exampleQuad : Annotation :=
  { top_left := ⟨100, 100⟩
    top_right := ⟨300, 100⟩
    bottom_right := ⟨300, 200⟩
    bottom_left := ⟨100, 200⟩ }

/-- A quadrilateral with `top_right.x < top_left.x` and
`bottom_left.y < top_left.y`. -/
def invertedQuad : Annotation :=
  { top_left := ⟨10, 10⟩
    top_right := ⟨4, 10⟩
    bottom_right := ⟨4, 2⟩
    bottom_left := ⟨10, 2⟩ }

/-- A single page containing one issue labeled "Critical". -/
def criticalPage : PageAnalysisResult :=
  ⟨[mkIssue "Critical"]⟩

/-! ## Claims -/

/-- C1: the claim says the sorted output is ordered Critical, High,
Medium, Low, Unknown — in particular `[Low, Critical, high, medium] ↦
[Critical, high, medium, Low]`.  The code violates it: `severityOrder`
itself declares `critical: 0`, but the comparator reads the entry through
`|| 4` and the number `0` is falsy in JavaScript, so "critical" gets rank
4 (the unmatched rank) and sorts last.  On the claim's own scenario the
output severity order is `[high, medium, Low, Critical]`. -/
theorem c1_critical_sorts_last :
    (sortedIssues
        [mkIssue "Low", mkIssue "Critical", mkIssue "high", mkIssue "medium"]).map
          (fun i => i.severity) = ["high", "medium", "Low", "Critical"] ∧
    severityOrder "critical" = some 0 ∧ rank "Critical" = 4 ∧ rank "critical" = 4 := by
  decide

/-- C6: for every quadrilateral and scale, `project` returns
left = topLeft.x × scale, top = topLeft.y × scale,
width = (topRight.x − topLeft.x) × scale,
height = (bottomLeft.y − topLeft.y) × scale; with
naturalWidth = 1000 and renderedWidth = 500 the scale is 0.5, and the
scenario quad projects to {left:50, top:50, width:100, height:50}. -/
theorem c6_project_formula :
    (∀ (a : Annotation) (scale : ℚ),
        project a scale =
          { left := a.top_left.x * scale
            top := a.top_left.y * scale
            width := (a.top_right.x - a.top_left.x) * scale
            height := (a.bottom_left.y - a.top_left.y) * scale }) ∧
    updateScaleOnLoad 500 1000 = 1 / 2 ∧
    project exampleQuad (updateScaleOnLoad 500 1000) =
      { left := 50, top := 50, width := 100, height := 50 } := by
  refine ⟨fun a scale => rfl, by norm_num [updateScaleOnLoad], ?_⟩
  show project exampleQuad (500 / 1000) = _
  norm_num [project, exampleQuad]

/-- C10: `project` applies the corner-delta formula with no validation
or clamping: on a quadrilateral whose top-right corner lies left of the
top-left corner and whose bottom-left corner lies above it, any positive
scale yields a rectangle with negative width and negative height. -/
theorem c10_inverted_quad_projected_as_is :
    (∀ (a : Annotation) (scale : ℚ),
        project a scale =
          { left := a.top_left.x * scale
            top := a.top_left.y * scale
            width := (a.top_right.x - a.top_left.x) * scale
            height := (a.bottom_left.y - a.top_left.y) * scale }) ∧
    invertedQuad.top_right.x < invertedQuad.top_left.x ∧
    invertedQuad.bottom_left.y < invertedQuad.top_left.y ∧
    ∀ scale : ℚ, 0 < scale →
      (project invertedQuad scale).width < 0 ∧
      (project invertedQuad scale).height < 0 := by
  refine ⟨fun a scale => rfl, by norm_num [invertedQuad], by norm_num [invertedQuad],
    fun scale hs => ⟨?_, ?_⟩⟩
  · show ((4 : ℚ) - 10) * scale < 0
    nlinarith
  · show ((2 : ℚ) - 10) * scale < 0
    nlinarith

/-- C10 witness: the theorem instantiated at scale 1. -/
theorem c10_witness :
    (0 : ℚ) < 1 ∧
    (project invertedQuad 1).width < 0 ∧ (project invertedQuad 1).height < 0 :=
  ⟨one_pos, (c10_inverted_quad_projected_as_is.2.2.2 1 one_pos).1,
    (c10_inverted_quad_projected_as_is.2.2.2 1 one_pos).2⟩

/-- C3 counterexample: there is no ready-guard in the component.  Before
the image's metadata loads the scale state holds its `useState(1)`
initial value 1, not 0; and at scale 0 the annotation `map` still renders
a (degenerate, all-zero) rectangle instead of skipping it. -/
theorem c3_counterexample :
    initialScale = 1 ∧
    renderAnnotations [exampleQuad] 0 ≠ [] ∧
    renderAnnotations [exampleQuad] 0 =
      [{ left := 0, top := 0, width := 0, height := 0 }] := by
  refine ⟨rfl, ?_, ?_⟩ <;> norm_num [renderAnnotations, project, exampleQuad]

/-- C3 amended: the scale state is initialized to 1 (not 0) and only
updated to containerWidth / naturalWidth once the image loads; a zero
container width does yield scale 0, but annotations are rendered
unconditionally at every scale — one rectangle per annotation — so at
scale 0 degenerate all-zero rectangles are drawn rather than skipped. -/
theorem c3_amended :
    initialScale = 1 ∧
    (∀ naturalWidth : ℚ, 0 < naturalWidth →
        updateScaleOnLoad 0 naturalWidth = 0) ∧
    (∀ (annotations : List Annotation) (scale : ℚ),
        (renderAnnotations annotations scale).length = annotations.length) ∧
    (∀ annotations : List Annotation,
        renderAnnotations annotations 0 =
          annotations.map (fun _ =>
            { left := 0, top := 0, width := 0, height := 0 })) := by
  refine ⟨rfl, fun nw _ => by simp [updateScaleOnLoad],
    fun anns s => by simp [renderAnnotations],
    fun anns => ?_⟩
  simp [renderAnnotations, project]

/-- C3 witness: the amended theorem at naturalWidth 1000 and a singleton
annotation list at scale 0. -/
theorem c3_witness :
    (0 : ℚ) < 1000 ∧
    updateScaleOnLoad 0 1000 = 0 ∧
    (renderAnnotations [exampleQuad] 0).length = 1 ∧
    renderAnnotations [exampleQuad] 0 =
      [{ left := 0, top := 0, width := 0, height := 0 }] :=
  ⟨by norm_num, c3_amended.2.1 1000 (by norm_num),
    c3_amended.2.2.1 [exampleQuad] 0, by
      have h := c3_amended.2.2.2 [exampleQuad]
      simpa using h⟩

/-- C2 counterexample: a collection consisting of one issue labeled
"Critical" has `totalIssues = 1` (the "Issues Found" stat), but the
severity pie only counts the "high"/"medium"/"low" slices, so the
breakdown sums to 0 — the critical issue is dropped from the severity
statistics. -/
theorem c2_counterexample :
    issuesFound (allIssues [criticalPage]) = 1 ∧
    (pieData (allIssues [criticalPage])).sum = 0 := by
  decide

/-- C2 amended: the severity-breakdown counts sum to the number of issues
whose lowercased severity is "high", "medium" or "low" — issues labeled
"critical" or anything unrecognized are excluded from the breakdown —
while the "Issues Found" stat equals the length of the full flattened
collection.  The two agree only when every issue carries one of those
three labels. -/
theorem c2_amended (pages : List PageAnalysisResult) :
    (pieData (allIssues pages)).sum =
      ((allIssues pages).filter (fun i =>
        jsToLower i.severity = "high" ∨ jsToLower i.severity = "medium" ∨
          jsToLower i.severity = "low")).length ∧
    issuesFound (allIssues pages) = (allIssues pages).length := by
  refine ⟨?_, rfl⟩
  induction allIssues pages with
  | nil => rfl
  | cons i t ih =>
    simp only [pieData, severityCount, List.filter_cons] at *
    by_cases h1 : jsToLower i.severity = "high" <;>
      by_cases h2 : jsToLower i.severity = "medium" <;>
        by_cases h3 : jsToLower i.severity = "low" <;>
          simp_all <;> omega

/-- C7 counterexample: with no issues, the pie data is `[0, 0, 0]`; the
tooltip callback computes `0 / 0 × 100`, which is `NaN` — the percentage
is not guarded against a zero total.  The `ReportView` bar width divides
by `total_issues` just as unguardedly. -/
theorem c7_counterexample :
    pieData (allIssues []) = [0, 0, 0] ∧
    tooltipPercentage ((severityCount (allIssues []) "high" : ℚ))
        ((pieData (allIssues [])).map (fun n => (n : ℚ))) = JSNum.nan ∧
    barWidthPercent 0 0 = JSNum.nan := by
  refine ⟨rfl, ?_, ?_⟩ <;>
    simp [tooltipPercentage, barWidthPercent, jsDiv, jsMul100, pieData,
      severityCount, allIssues, issuesFound]

/-- C7 amended: no zero-total guard exists.  The tooltip percentage is
`NaN` exactly when the slice total is 0 and the slice value is 0 (the
only possibility when `totalIssues = 0`, since every count is then 0);
when the total is nonzero it is `value / total × 100`; and a positive
count over a zero `total_issues` in the report bars yields `Infinity`. -/
theorem c7_amended :
    (∀ (value : ℚ) (data : List ℚ),
        tooltipPercentage value data = JSNum.nan ↔ (data.sum = 0 ∧ value = 0)) ∧
    (∀ (value : ℚ) (data : List ℚ), data.sum ≠ 0 →
        tooltipPercentage value data = JSNum.val (value / data.sum * 100)) ∧
    (∀ count : ℚ, 0 < count → barWidthPercent count 0 = JSNum.posInf) := by
  refine ⟨fun value data => ?_, fun value data h => ?_, fun count h => ?_⟩
  · unfold tooltipPercentage jsDiv jsMul100
    split_ifs <;> simp_all
  · unfold tooltipPercentage jsDiv jsMul100
    simp [h]
  · unfold barWidthPercent jsDiv jsMul100
    simp [h, ne_of_gt h]

/-- C7 witness: the amended theorem at concrete inputs — zero data
`[0, 0, 0]` with value 0 gives `NaN`; data `[1]` with value 1 gives
`100%`; a bar with count 1 over total 0 gives `Infinity`. -/
theorem c7_witness :
    tooltipPercentage 0 [0, 0, 0] = JSNum.nan ∧
    tooltipPercentage 1 [1] = JSNum.val 100 ∧
    barWidthPercent 1 0 = JSNum.posInf :=
  ⟨(c7_amended.1 0 [0, 0, 0]).mpr ⟨by norm_num, rfl⟩,
    by have h := c7_amended.2.1 1 [1] (by norm_num); simpa using h,
    c7_amended.2.2 1 one_pos⟩

/-- The world after loading evaluation A successfully, switching
`evaluationId` (which runs the effect cleanup and a new fetch), and
loading evaluation B successfully. -/
def doubleLoadWorld : World :=
  fetchSuccess "results-B" (effectCleanup (fetchSuccess "results-A" initWorld))

/-- C4: the claim says at most one handle is live at every instant and
each handle is released exactly once.  The code violates it — and its own
cleanup comment ("revoke all URLs when component unmounts"): the cleanup
iterates over the `screenshots` state, which no code path ever populates,
while the created object URL is stored only in `imageUrl`.  After loading
evaluation A and then evaluation B, both handles are live simultaneously
and the revocation ledger is empty. -/
theorem c4_handles_never_released :
    doubleLoadWorld.comp.screenshots = [] ∧
    liveHandles doubleLoadWorld = [0, 1] ∧
    doubleLoadWorld.revoked = [] := by
  decide

/-- C5 counterexample: load A is issued, then superseded by load B
(cleanup plus a new fetch); B's response settles first, then A's stale
response settles.  The closure stores its payload unconditionally — there
is no check of the originating request against the current target id — so
the final state holds A's results, not B's. -/
theorem c5_counterexample :
    (fetchSuccess "results-A"
        (fetchSuccess "results-B" (effectCleanup initWorld))).comp.results =
      some "results-A" ∧
    ("results-A" : String) ≠ "results-B" := by
  decide

/-- C5 amended: a superseded in-flight load is not discarded: every
response overwrites `results` when it settles, so after any sequence of
settlements the state reflects whichever response settled last — A's
data when A resolves after B. -/
theorem c5_amended (w : World) (earlier : List String) (last : String) :
    ((earlier ++ [last]).foldl (fun acc d => fetchSuccess d acc) w).comp.results =
      some last := by
  rw [List.foldl_append]
  rfl

/-- C8: severity classification is a total function of the input string:
it is case-insensitive (`"HIGH"`, `"high"`, `"High"` all get the same
rank), every string whose lowercasing is outside
{critical, high, medium, low} — including the empty string — gets the
unmatched rank 4, and rank 4 is the maximum, so unmatched severities
sort last. -/
theorem c8_classify_total_case_insensitive :
    (rank "HIGH" = rank "high" ∧ rank "High" = rank "high" ∧ rank "high" = 1) ∧
    (∀ s : String,
        jsToLower s ∉ (["critical", "high", "medium", "low"] : List String) →
          rank s = 4) ∧
    (∀ s : String, rank s ≤ 4) ∧
    rank "" = 4 := by
  refine ⟨by decide, fun s h => ?_, fun s => ?_, by decide⟩
  · simp only [List.mem_cons, List.mem_singleton, not_or] at h
    obtain ⟨h1, h2, h3, h4⟩ := h
    simp [rank, severityOrder, jsOr, h1, h2, h3, h4]
  · unfold rank jsOr
    cases hso : severityOrder (jsToLower s) with
    | none => simp
    | some n =>
      have hn : n ≤ 3 := by
        unfold severityOrder at hso
        split_ifs at hso <;> (try simp_all) <;> omega
      simp only []
      split_ifs <;> omega

/-- C8 witness: the theorem at the concrete unmatched string "bogus"
(and its bound applied to "Critical"). -/
theorem c8_witness :
    rank "bogus" = 4 ∧ rank "Critical" ≤ 4 :=
  ⟨c8_classify_total_case_insensitive.2.1 "bogus" (by decide),
    c8_classify_total_case_insensitive.2.2.1 "Critical"⟩

/-- Inserting an element whose rank is `n` into any list leaves it in
front of that list's rank-`n` elements: `orderedInsert` walks past only
elements of strictly smaller rank. -/
theorem filter_orderedInsert_rank_eq (a : AnalysisResultItem) (n : ℕ)
    (h : rank a.severity = n) :
    ∀ t : List AnalysisResultItem,
      (t.orderedInsert severityLE a).filter (fun x => rank x.severity == n) =
        a :: t.filter (fun x => rank x.severity == n)
  | [] => by simp [List.orderedInsert, h]
  | b :: t => by
    rw [List.orderedInsert]
    by_cases hle : severityLE a b
    · rw [if_pos hle]
      simp [List.filter_cons, h]
    · rw [if_neg hle]
      have hb : ¬ rank b.severity = n := by
        unfold severityLE at hle
        omega
      simp only [List.filter_cons]
      rw [filter_orderedInsert_rank_eq a n h t]
      simp [hb]

/-- Inserting an element of a different rank does not disturb the
rank-`n` subsequence. -/
theorem filter_orderedInsert_rank_ne (a : AnalysisResultItem) (n : ℕ)
    (h : ¬ rank a.severity = n) :
    ∀ t : List AnalysisResultItem,
      (t.orderedInsert severityLE a).filter (fun x => rank x.severity == n) =
        t.filter (fun x => rank x.severity == n)
  | [] => by simp [List.orderedInsert, h]
  | b :: t => by
    rw [List.orderedInsert]
    by_cases hle : severityLE a b
    · rw [if_pos hle]
      simp [List.filter_cons, h]
    · rw [if_neg hle]
      simp only [List.filter_cons]
      rw [filter_orderedInsert_rank_ne a n h t]

/-- C9: the severity sort is stable — for every issue collection and
every rank value, the subsequence of issues classified at that rank is
the same, in the same order, before and after sorting.  (Equal-rank
issues therefore keep their original relative order.) -/
theorem c9_sort_stable (l : List AnalysisResultItem) (n : ℕ) :
    (sortedIssues l).filter (fun x => rank x.severity == n) =
      l.filter (fun x => rank x.severity == n) := by
  unfold sortedIssues
  induction l with
  | nil => rfl
  | cons a t ih =>
    rw [List.insertionSort]
    by_cases h : rank a.severity = n
    · rw [filter_orderedInsert_rank_eq a n h, ih]
      simp [List.filter_cons, h]
    · rw [filter_orderedInsert_rank_ne a n h, ih]
      simp [List.filter_cons, h]
